import Mathlib

/-!
Verification of the timora client-side analytics and offline-queue utilities.

The definitions below are shallow embeddings of the JavaScript sources:

* the AI insights helpers `analyzeBurnoutRisk`, `detectProductivityPatterns`,
  `generateSmartTaskRecommendations` and `estimateTaskDuration`;
* the streak computation duplicated verbatim in the Dashboard and Insights
  pages;
* the `OfflineQueue` class of `safeAsyncUtils.js`.

Modelling conventions: timestamps are minutes (`Nat`); calendar days are the
timestamp divided by `24 * 60` (`Int`); JavaScript number arithmetic that can
produce fractions is carried out in `ℚ`; a JavaScript value that may be
`undefined`/`null` is an `Option`; `Array.prototype.sort` (stable per
ES2019) is modelled by the stable `List.mergeSort` with
`le a b := compare a b ≤ 0`.
-/

namespace Timora

/-- A task record, as consumed by the insights helpers and the streak
computation.  `due_date` and `completed_at` are timestamps in minutes,
`time_estimate` is in minutes. -/
structure Task where
  id : Nat
  status : String
  priority : String
  category : String
  due_date : Option Nat
  completed_at : Option Nat
  time_estimate : Option Nat
  deriving DecidableEq

/-- A focus-session record.  `duration` is minutes, `started_at` a timestamp
in minutes. -/
structure FocusSession where
  duration : Option Nat
  started_at : Option Nat
  completed : Bool
  deriving DecidableEq

/-- JavaScript truthiness of an optional number: `undefined`, `null` and `0`
are falsy. -/
def jsTruthy (o : Option Nat) : Bool := o.getD 0 ≠ 0

/-- `Math.round` for the nonnegative rationals that occur here: round half
up. -/
def jsRound (x : ℚ) : Nat := (⌊x + 1 / 2⌋).toNat

/-! ## analyzeBurnoutRisk (AIInsightsHelpers) -/

/-- Result object of `analyzeBurnoutRisk`.  The source formats `hoursPerDay`
and `totalWeeklyHours` with `.toFixed(1)`; the model keeps the exact
rationals. -/
structure BurnoutAnalysis where
  riskLevel : String
  hoursPerDay : ℚ
  recommendation : String
  totalWeeklyHours : ℚ
  deriving DecidableEq

/-- Total minutes of the sessions `analyzeBurnoutRisk` keeps: the source
filter is `session.started_at && new Date(session.started_at) > sevenDaysAgo`
(strict), followed by `reduce((sum, s) => sum + (s.duration || 0), 0)`. -/
def burnoutTotalMinutes (now : Nat) (focusSessions : List FocusSession) : Nat :=
  ((focusSessions.filter fun s =>
      s.started_at.any fun t => (now : Int) - 7 * 24 * 60 < (t : Int))).foldl
    (fun sum s => sum + s.duration.getD 0) 0

/-- Shallow embedding of `analyzeBurnoutRisk(focusSessions, tasks)`.
`now` is the current time in minutes.  The `tasks` parameter is accepted and
never read, exactly as in the source. -/
def analyzeBurnoutRisk (now : Nat) (focusSessions : List FocusSession)
    (tasks : List Task) : BurnoutAnalysis :=
  let totalMinutes : Nat := burnoutTotalMinutes now focusSessions
  let dailyAverage : ℚ := (totalMinutes : ℚ) / 7
  let hoursPerDay : ℚ := dailyAverage / 60
  let totalWeeklyHours : ℚ := (totalMinutes : ℚ) / 60
  if 10 < hoursPerDay then
    ⟨"high", hoursPerDay,
      "You\x27re working very long hours. Consider taking breaks and delegating tasks.",
      totalWeeklyHours⟩
  else if 8 < hoursPerDay then
    ⟨"medium", hoursPerDay,
      "Your workload is high. Try to schedule regular breaks throughout the day.",
      totalWeeklyHours⟩
  else
    ⟨"low", hoursPerDay, "You\x27re maintaining a healthy work balance.",
      totalWeeklyHours⟩

/-- Modelled from the spec: the window of claim C5, "started-at lies within
the trailing 7 days of now (now − 7×24h, inclusive)", i.e. the boundary
session at exactly `now − 7*24*60` is kept, with the risk thresholds of the
spec applied to the resulting total.  This is the claim's reading, to be
compared with `analyzeBurnoutRisk`, whose filter is strict. -/
def burnoutRiskClaim (now : Nat) (focusSessions : List FocusSession) : String :=
  let total : Nat :=
    ((focusSessions.filter fun s =>
        s.started_at.any fun t => (now : Int) - 7 * 24 * 60 ≤ (t : Int))).foldl
      (fun sum s => sum + s.duration.getD 0) 0
  let hoursPerDay : ℚ := (total : ℚ) / 7 / 60
  if 10 < hoursPerDay then "high" else if 8 < hoursPerDay then "medium" else "low"

/-! ## detectProductivityPatterns (AIInsightsHelpers) -/

/-- Hour of day (0–23) of a timestamp in minutes, as
`new Date(ts).getHours()`. -/
def hourOf (t : Nat) : Nat := t / 60 % 24

/-- Number of sessions of `sessions` whose `started_at` falls in hour `h`:
the `count` field of `hourlyStats[h]` (0 when the key was never created). -/
def hourCount (sessions : List FocusSession) (h : Nat) : Nat :=
  sessions.countP fun s => s.started_at.any fun t => hourOf t == h

/-- One step of the `Object.entries(hourlyStats).forEach` loop choosing the
best hour: strictly more sessions than the current best wins. -/
def bestStep (counts : Nat → Nat) (best : Option Nat × Nat) (h : Nat) :
    Option Nat × Nat :=
  if counts h > best.2 then (some h, counts h) else best

/-- The `bestHour`/`bestCount` pair.  `Object.entries` enumerates the
integer-like keys of `hourlyStats` in ascending numeric order (ECMAScript
own-property-key order), so the loop is a fold over hours `0..23` in
ascending order; hours absent from `hourlyStats` have count 0 and can never
pass the strict `>` test, so including them is harmless. -/
def bestHourFold (counts : Nat → Nat) : Option Nat × Nat :=
  (List.range 24).foldl (bestStep counts) (none, 0)

/-- Result object of `detectProductivityPatterns`.  Fields absent from the
"insufficient data" object are `none`. -/
structure ProductivityPattern where
  pattern : String
  peakHour : Option Nat
  peakTimeLabel : Option String
  sessionsInPeakHour : Option Nat
  message : String
  deriving DecidableEq

/-- The source computes
`bestHour < 12 ? "morning" : bestHour < 17 ? "afternoon" : "evening"`;
when `bestHour` is `null` JavaScript coerces it to 0, so the label is
"morning". -/
def timeLabelOf : Option Nat → String
  | none => "morning"
  | some h => if h < 12 then "morning" else if h < 17 then "afternoon" else "evening"

/-- String interpolation of `bestHour` in the message (`null` prints as
"null"). -/
def hourText : Option Nat → String
  | none => "null"
  | some h => toString h

/-- Shallow embedding of `detectProductivityPatterns(focusSessions)`. -/
def detectProductivityPatterns (focusSessions : List FocusSession) :
    ProductivityPattern :=
  let completedSessions := focusSessions.filter (·.completed)
  if completedSessions.length < 5 then
    ⟨"insufficient_data", none, none, none,
      "Complete more focus sessions to see your productivity patterns."⟩
  else
    let best := bestHourFold (hourCount completedSessions)
    let timeLabel := timeLabelOf best.1
    ⟨"identified", best.1, some timeLabel, some best.2,
      "You\x27re most productive in the " ++ timeLabel ++ " (around " ++
        hourText best.1 ++ ":00). Schedule important tasks during this time."⟩

/-! ## generateSmartTaskRecommendations (AIInsightsHelpers) -/

/-- `priorityWeight = { high: 3, medium: 2, low: 1 }`; indexing with any
other priority yields `undefined`, modelled as `none`. -/
def priorityWeight (p : String) : Option Int :=
  if p == "high" then some 3
  else if p == "medium" then some 2
  else if p == "low" then some 1
  else none

/-- The comparator passed to `.sort`.  When the two weights differ it
returns `weight(b) − weight(a)` (with any `undefined` operand the JS
subtraction is `NaN`, which `SortCompare` maps to `+0`); when they are equal
and both tasks have due dates it compares due dates; otherwise `0`. -/
def taskCmp (a b : Task) : Int :=
  if priorityWeight a.priority ≠ priorityWeight b.priority then
    match priorityWeight b.priority, priorityWeight a.priority with
    | some wb, some wa => wb - wa
    | _, _ => 0
  else
    match a.due_date, b.due_date with
    | some da, some db => (da : Int) - (db : Int)
    | _, _ => 0

/-- The stable-sort order induced by `taskCmp`: `a` may stay before `b`
exactly when the comparator does not order `b` strictly first. -/
def taskLE (a b : Task) : Bool := taskCmp a b ≤ 0

/-- Result object of `generateSmartTaskRecommendations`. -/
structure TaskRecommendations where
  recommendations : List (Task × String)
  message : String
  deriving DecidableEq

/-- Shallow embedding of `generateSmartTaskRecommendations(tasks)`. -/
def generateSmartTaskRecommendations (tasks : List Task) : TaskRecommendations :=
  let pendingTasks := tasks.filter fun t => t.status ≠ "completed"
  if pendingTasks.length = 0 then
    ⟨[], "All caught up! No pending tasks."⟩
  else
    let prioritized := (pendingTasks.mergeSort taskLE).take 3
    ⟨prioritized.map fun task =>
        (task,
          task.priority ++ " priority" ++
            (if task.due_date.isSome then ", due soon" else "")),
      "Here are your top priorities for today:"⟩

/-! ## estimateTaskDuration (AIInsightsHelpers) -/

/-- The `similar` list: completed historical tasks of the same category with
a truthy `time_estimate`. -/
def similarTasks (task : Task) (historicalTasks : List Task) : List Task :=
  historicalTasks.filter fun t =>
    t.category == task.category && t.status == "completed" &&
      jsTruthy t.time_estimate

/-- `defaults[task.category] || 30`. -/
def categoryDefault (category : String) : Nat :=
  if category == "daily" then 15
  else if category == "weekly" then 30
  else if category == "project" then 60
  else if category == "someday" then 45
  else 30

/-- `similar.reduce((sum, t) => sum + (t.time_estimate || 0), 0)`. -/
def estimateSum (l : List Task) : Nat :=
  l.foldl (fun sum t => sum + t.time_estimate.getD 0) 0

/-- Shallow embedding of `estimateTaskDuration(task, historicalTasks)`.
Note the source guard is `if (task.time_estimate)`: truthiness, so an
explicit estimate of 0 falls through to the history/default path. -/
def estimateTaskDuration (task : Task) (historicalTasks : List Task) : Nat :=
  if jsTruthy task.time_estimate then task.time_estimate.getD 0
  else
    let similar := similarTasks task historicalTasks
    if similar.length = 0 then categoryDefault task.category
    else jsRound ((estimateSum similar : ℚ) / (similar.length : ℚ))

/-! ## Streak computation (Dashboard.jsx and Insights.jsx, identical code) -/

/-- `format(startOfDay(new Date(ts)), "yyyy-MM-dd")`: the calendar day of a
timestamp in minutes.  Distinct days yield distinct strings and the
lexicographic order of the fixed-width strings is the chronological order,
so days are modelled as integers. -/
def dayOf (t : Nat) : Int := (t : Int) / (24 * 60)

/-- `[...new Set(xs)]`: deduplication keeping the first occurrence. -/
def jsSetDedup : List Int → List Int
  | [] => []
  | a :: l => a :: (jsSetDedup l).filter fun b => b ≠ a

/-- Default `.sort()` comparison on the date strings, i.e. the order on the
underlying days. -/
def dayLE (a b : Int) : Bool := a ≤ b

/-- `[...new Set(completedDates)].sort().reverse()`. -/
def uniqueDatesSorted (dates : List Int) : List Int :=
  ((jsSetDedup dates).mergeSort dayLE).reverse

/-- The `for (const date of uniqueDates)` loop: count matches of
consecutive days starting at `check`, stopping at the first gap. -/
def streakWalk : List Int → Int → Nat
  | [], _ => 0
  | d :: rest, check => if d = check then streakWalk rest (check - 1) + 1 else 0

/-- The streak computation of the Dashboard and Insights pages.  `today` is
the current calendar day. -/
def computeStreak (today : Int) (tasks : List Task) : Nat :=
  let completedDates := tasks.filterMap fun t => t.completed_at.map dayOf
  streakWalk (uniqueDatesSorted completedDates) today

/-! ## OfflineQueue (safeAsyncUtils.js) -/

/-- A queued operation: `{ id, operation, data, metadata, timestamp,
attempts }`.  The `Date.now() + Math.random()` identifier and the ISO
timestamp string are modelled as the `id` and `timestamp` numbers. -/
structure QueuedOp where
  id : Nat
  operation : String
  data : String
  metadata : String
  timestamp : Nat
  attempts : Nat
  deriving DecidableEq

/-- The state of an `OfflineQueue` instance together with the durable store:
`queue` is `this.queue`, `processing` is `this.processing`, and `stored`
models the string under the `localStorage` key `offline_operation_queue`
(`none` = key absent). -/
structure QueueState where
  queue : List QueuedOp
  processing : Bool
  stored : Option (List QueuedOp)
  deriving DecidableEq

/-- A failed operation as it stands after its drain attempt. -/
def bumpAttempts (a : QueuedOp) : QueuedOp :=
  ⟨a.id, a.operation, a.data, a.metadata, a.timestamp, a.attempts + 1⟩

/-- Modelled from the spec: the body of the `while` loop of
`OfflineQueue.processQueue`.  The execution of the head operation against
the remote mutation endpoint is absent from the source — the `try` block
holds only the placeholder comment "Execute the operation" and a
`console.log` — so, following the spec (§4.2 drain, §6 remote mutation
endpoint), it is supplied as the oracle `exec`, whose failure is signalled
by throwing.  Per the spec, a drain attempt advances the attempt counter
(the source's `item.attempts++` runs once per attempt), after which the
`catch` block checks `item.attempts >= 3` (consistent with its
"Removing operation after 3 failed attempts" diagnostic): on success the
head is removed and the loop continues; on failure the head is removed or
moved to the tail with its incremented counter, and the loop `break`s. -/
def OfflineQueue.drainLoop (exec : QueuedOp → Bool) : List QueuedOp → List QueuedOp
  | [] => []
  | item :: rest =>
    if exec item then
      OfflineQueue.drainLoop exec rest
    else
      let failed := bumpAttempts item
      if 3 ≤ failed.attempts then rest else rest ++ [failed]

/-- Shallow embedding of `OfflineQueue.processQueue`.  The reentrancy flag
is set for the duration of the synchronous pass and cleared at the end;
`navigator.onLine` is the constant `online` during the pass.  `saveQueue()`
runs after every queue mutation, and when the loop body runs at least once
the last save writes the final queue. -/
def OfflineQueue.processQueue (online : Bool) (exec : QueuedOp → Bool)
    (st : QueueState) : QueueState :=
  if st.processing || st.queue.isEmpty then st
  else if !online then st
  else
    let q := OfflineQueue.drainLoop exec st.queue
    ⟨q, false, some q⟩

/-- Shallow embedding of `OfflineQueue.add(operation, data, metadata)`.
`id` models `Date.now() + Math.random()` and `timestamp` the enqueue time;
the new item is pushed with `attempts: 0`, the queue is persisted, and when
online the drain pass is run (and awaited) before `add` returns the id. -/
def OfflineQueue.add (online : Bool) (exec : QueuedOp → Bool) (st : QueueState)
    (operation data metadata : String) (id timestamp : Nat) : QueueState × Nat :=
  let op : QueuedOp := ⟨id, operation, data, metadata, timestamp, 0⟩
  let st1 : QueueState := ⟨st.queue ++ [op], st.processing, some (st.queue ++ [op])⟩
  if online then (OfflineQueue.processQueue online exec st1, id) else (st1, id)

/-- Modelled from the spec: the enqueue of claim C6, which "triggers a drain
attempt fire-and-forget without blocking the caller" — at the moment `add`
returns, the item has been appended and persisted but no drain has run.
To be compared with `OfflineQueue.add`, which awaits the drain pass. -/
def OfflineQueue.addClaim (st : QueueState) (operation data metadata : String)
    (id timestamp : Nat) : QueueState × Nat :=
  let op : QueuedOp := ⟨id, operation, data, metadata, timestamp, 0⟩
  (⟨st.queue ++ [op], st.processing, some (st.queue ++ [op])⟩, id)

/-- `OfflineQueue.getQueueLength`. -/
def OfflineQueue.getQueueLength (st : QueueState) : Nat := st.queue.length

/-- `OfflineQueue.clearQueue`. -/
def OfflineQueue.clearQueue (st : QueueState) : QueueState :=
  ⟨[], st.processing, some []⟩

/-- What `JSON.parse` can hand back for the stored string: a serialized
queue, or any other JSON value (the source performs no shape check). -/
inductive StoredJson where
  | jarr (q : List QueuedOp)
  | jother
  deriving DecidableEq

/-- The possible outcomes of reading the `localStorage` key in
`loadQueue`: `getItem` returns `null` (or a falsy empty string), `getItem`
throws, the string is rejected by `JSON.parse`, or the string parses to a
JSON value. -/
inductive StorageRead where
  | absent
  | unreadable
  | corruptString
  | parsed (v : StoredJson)
  deriving DecidableEq

/-- Shallow embedding of `OfflineQueue.loadQueue`:
`return saved ? JSON.parse(saved) : []` inside `try`, `return []` in
`catch`.  Whatever `JSON.parse` produces is returned unvalidated. -/
def OfflineQueue.loadQueue : StorageRead → StoredJson
  | .absent => .jarr []
  | .unreadable => .jarr []
  | .corruptString => .jarr []
  | .parsed v => v

/-- Whether a loaded value actually is a queue. -/
def StoredJson.isQueue : StoredJson → Bool
  | .jarr _ => true
  | .jother => false

/-! ## Helper lemmas about the drain pass -/

/-- A drain pass in which every executed operation succeeds removes every
item: the loop keeps shifting successful heads until the queue is empty. -/
lemma drainLoop_all_success (exec : QueuedOp → Bool) :
    ∀ q : List QueuedOp, (∀ x ∈ q, exec x = true) →
      OfflineQueue.drainLoop exec q = []
  | [], _ => rfl
  | x :: q, h => by
    simp only [OfflineQueue.drainLoop, h x (List.mem_cons_self x q), if_true]
    exact drainLoop_all_success exec q fun y hy => h y (List.mem_cons_of_mem x hy)

/-- A drain pass stops at the first failing item: the successful prefix is
removed, the failed head is discarded (when its advanced counter reaches 3)
or moved to the tail with the advanced counter, and every item after it is
left untouched for the next trigger. -/
lemma drainLoop_first_fail (exec : QueuedOp → Bool) :
    ∀ (pre post : List QueuedOp) (a : QueuedOp),
      (∀ x ∈ pre, exec x = true) → exec a = false →
      OfflineQueue.drainLoop exec (pre ++ a :: post)
        = if 3 ≤ a.attempts + 1 then post else post ++ [bumpAttempts a]
  | [], post, a, _, hfail => by
    simp only [List.nil_append, OfflineQueue.drainLoop, hfail, Bool.false_eq_true,
      if_false, bumpAttempts]
  | x :: pre, post, a, hpre, hfail => by
    simp only [List.cons_append, OfflineQueue.drainLoop,
      hpre x (List.mem_cons_self x pre), if_true]
    exact drainLoop_first_fail exec pre post a
      (fun y hy => hpre y (List.mem_cons_of_mem x hy)) hfail

/-! ## Claim C1 -/

/-- Claim C1: on a failed drain attempt the head's attempt counter is
advanced and the item is requeued at the tail while the counter stays below
3, and discarded once it reaches 3; concretely, a fresh operation whose
execution always fails carries counter 2 after two passes and is removed on
the third, and one that fails twice and then succeeds is also gone after
the third pass — no operation is retried indefinitely. -/
theorem c1_retry_bound :
    (∀ (exec : QueuedOp → Bool) (pre post : List QueuedOp) (a : QueuedOp),
        (∀ x ∈ pre, exec x = true) → exec a = false →
        OfflineQueue.drainLoop exec (pre ++ a :: post)
          = if 3 ≤ a.attempts + 1 then post else post ++ [bumpAttempts a])
    ∧ (∀ id ts : Nat, ∀ o d m : String,
        ((OfflineQueue.processQueue true fun _ => false)^[2]
            ⟨[⟨id, o, d, m, ts, 0⟩], false, none⟩).queue = [⟨id, o, d, m, ts, 2⟩]
        ∧ ((OfflineQueue.processQueue true fun _ => false)^[3]
            ⟨[⟨id, o, d, m, ts, 0⟩], false, none⟩).queue = [])
    ∧ (∀ id ts : Nat, ∀ o d m : String,
        ((OfflineQueue.processQueue true fun op => op.attempts == 2)^[3]
            ⟨[⟨id, o, d, m, ts, 0⟩], false, none⟩).queue = []) := by
  refine ⟨drainLoop_first_fail, ?_, ?_⟩
  · intro id ts o d m
    exact ⟨rfl, rfl⟩
  · intro id ts o d m
    rfl

/-- Witness for C1 at a concrete operation. -/
theorem c1_retry_bound_witness :
    OfflineQueue.drainLoop (fun _ => false) [⟨1, "create_task", "d", "m", 0, 0⟩]
      = [bumpAttempts ⟨1, "create_task", "d", "m", 0, 0⟩]
    ∧ ((OfflineQueue.processQueue true fun _ => false)^[3]
        ⟨[⟨1, "create_task", "d", "m", 0, 0⟩], false, none⟩).queue = [] := by
  constructor
  · have h := c1_retry_bound.1 (fun _ => false) [] []
      ⟨1, "create_task", "d", "m", 0, 0⟩ (by intro x hx; cases hx) rfl
    simpa using h
  · exact (c1_retry_bound.2.1 1 0 "create_task" "d" "m").2

/-! ## Claim C2 -/

/-- Counterexample to claim C2: a single online drain pass on a queue of two
operations whose executions both succeed processes both of them — the queue
is empty after the one pass, not left holding the second item as "at most
the current head item" would demand. -/
theorem c2_counterexample :
    (OfflineQueue.processQueue true (fun _ => true)
        ⟨[⟨1, "create_task", "a", "m", 0, 0⟩, ⟨2, "update_note", "b", "m", 0, 0⟩],
          false, none⟩).queue = []
    ∧ (OfflineQueue.processQueue true (fun _ => true)
        ⟨[⟨1, "create_task", "a", "m", 0, 0⟩, ⟨2, "update_note", "b", "m", 0, 0⟩],
          false, none⟩).queue ≠ [⟨2, "update_note", "b", "m", 0, 0⟩] := by
  exact ⟨rfl, by decide⟩

/-- Claim C2 as amended: a drain pass processes items from the head while
they succeed — a pass over an all-succeeding queue drains it completely —
and stops early only after settling the first failing item (discard or
requeue), leaving the items behind it untouched for the next trigger; a
non-reentrant pass on a non-empty queue rewrites the state with the drained
queue and persists it. -/
theorem c2_amended :
    (∀ (exec : QueuedOp → Bool) (q : List QueuedOp),
        (∀ x ∈ q, exec x = true) → OfflineQueue.drainLoop exec q = [])
    ∧ (∀ (exec : QueuedOp → Bool) (pre post : List QueuedOp) (a : QueuedOp),
        (∀ x ∈ pre, exec x = true) → exec a = false →
        OfflineQueue.drainLoop exec (pre ++ a :: post) = post ∨
        OfflineQueue.drainLoop exec (pre ++ a :: post) = post ++ [bumpAttempts a])
    ∧ (∀ (exec : QueuedOp → Bool) (st : QueueState),
        st.processing = false → st.queue ≠ [] →
        OfflineQueue.processQueue true exec st
          = ⟨OfflineQueue.drainLoop exec st.queue, false,
              some (OfflineQueue.drainLoop exec st.queue)⟩) := by
  refine ⟨drainLoop_all_success, ?_, ?_⟩
  · intro exec pre post a hpre hfail
    rw [drainLoop_first_fail exec pre post a hpre hfail]
    by_cases h3 : 3 ≤ a.attempts + 1
    · exact Or.inl (if_pos h3)
    · exact Or.inr (if_neg h3)
  · intro exec st hproc hq
    have hqe : st.queue.isEmpty = false := by
      cases hq2 : st.queue with
      | nil => exact absurd hq2 hq
      | cons x xs => simp
    simp [OfflineQueue.processQueue, hproc, hqe]

/-- Witness for C2 at a concrete all-succeeding queue. -/
theorem c2_amended_witness :
    OfflineQueue.drainLoop (fun _ => true)
      [⟨1, "create_task", "a", "m", 0, 0⟩, ⟨2, "update_note", "b", "m", 0, 0⟩] = [] :=
  c2_amended.1 (fun _ => true) _ (by intro x hx; rfl)

/-! ## Claim C6 -/

/-- Counterexample to claim C6: while online, `add` awaits the drain pass,
so the caller resumes with the drain already applied — here the queue is
already empty when `add` returns — whereas the fire-and-forget enqueue of
the claim would return with the freshly appended item still in the queue. -/
theorem c6_counterexample :
    (OfflineQueue.add true (fun _ => true) ⟨[], false, none⟩
        "create_task" "d" "m" 7 100).1.queue = []
    ∧ (OfflineQueue.addClaim ⟨[], false, none⟩
        "create_task" "d" "m" 7 100).1.queue = [⟨7, "create_task", "d", "m", 100, 0⟩]
    ∧ ([] : List QueuedOp) ≠ [⟨7, "create_task", "d", "m", 100, 0⟩] := by
  exact ⟨rfl, rfl, by decide⟩

/-- Claim C6 as amended: `add` appends the new operation with `attempts = 0`
to the in-memory queue and to the persisted copy and returns its identifier;
while offline the queue length grows by exactly 1 and no drain runs
(the result does not consult the executor); while online the drain pass is
run — and awaited — on the appended state before `add` returns. -/
theorem c6_amended :
    ∀ (exec : QueuedOp → Bool) (st : QueueState)
      (operation data metadata : String) (id timestamp : Nat),
      OfflineQueue.add false exec st operation data metadata id timestamp
        = (⟨st.queue ++ [⟨id, operation, data, metadata, timestamp, 0⟩],
            st.processing,
            some (st.queue ++ [⟨id, operation, data, metadata, timestamp, 0⟩])⟩, id)
      ∧ OfflineQueue.getQueueLength
          (OfflineQueue.add false exec st operation data metadata id timestamp).1
          = OfflineQueue.getQueueLength st + 1
      ∧ (OfflineQueue.add false exec st operation data metadata id timestamp).2 = id
      ∧ OfflineQueue.add true exec st operation data metadata id timestamp
          = (OfflineQueue.processQueue true exec
              ⟨st.queue ++ [⟨id, operation, data, metadata, timestamp, 0⟩],
                st.processing,
                some (st.queue ++ [⟨id, operation, data, metadata, timestamp, 0⟩])⟩,
              id) := by
  intro exec st operation data metadata id timestamp
  refine ⟨rfl, ?_, rfl, rfl⟩
  simp [OfflineQueue.add, OfflineQueue.getQueueLength]

/-! ## Claim C9 -/

/-- Counterexample to claim C9: a stored string that is valid JSON but not
an array — say `"42"` — is returned by `loadQueue` as-is, so loading does
yield a non-queue value. -/
theorem c9_counterexample :
    (OfflineQueue.loadQueue (.parsed .jother)).isQueue = false := rfl

/-- Claim C9 as amended: loading never throws; an absent, corrupt, or
unreadable stored string initializes the queue to the empty queue
(fail-open), and a string that parses is used as the queue verbatim, with
no check that the parsed value actually is an array. -/
theorem c9_amended :
    OfflineQueue.loadQueue .absent = .jarr []
    ∧ OfflineQueue.loadQueue .unreadable = .jarr []
    ∧ OfflineQueue.loadQueue .corruptString = .jarr []
    ∧ ∀ v : StoredJson, OfflineQueue.loadQueue (.parsed v) = v :=
  ⟨rfl, rfl, rfl, fun _ => rfl⟩

/-! ## Claim C5 -/

/-- The rational threshold `totalMinutes / 7 / 60 > c` is the integer
threshold `totalMinutes > c * 420`. -/
lemma burnout_threshold_iff (t : Nat) (c : ℚ) :
    (c < (t : ℚ) / 7 / 60 ↔ (c * 420 : ℚ) < (t : ℚ)) := by
  rw [div_div, lt_div_iff₀ (by norm_num : (0 : ℚ) < 7 * 60)]
  constructor <;> intro h <;> nlinarith

/-- Counterexample to claim C5: a session started exactly at
`now − 7×24h` (here `now = 20160`, session start `10080`) with a huge
duration is excluded by the code's strict `>` filter — the computed risk is
"low" — while the inclusive window of the claim would include it and report
"high". -/
theorem c5_counterexample :
    (analyzeBurnoutRisk 20160 [⟨some 10000, some 10080, true⟩] []).riskLevel = "low"
    ∧ burnoutRiskClaim 20160 [⟨some 10000, some 10080, true⟩] = "high" := by
  have h1 : burnoutTotalMinutes 20160 [⟨some 10000, some 10080, true⟩] = 0 := by
    decide
  have h2 : ((List.filter
        (fun s => s.started_at.any fun t => (20160 : Int) - 7 * 24 * 60 ≤ (t : Int))
        [(⟨some 10000, some 10080, true⟩ : FocusSession)])).foldl
      (fun sum s => sum + s.duration.getD 0) 0 = 10000 := by
    decide
  constructor
  · simp only [analyzeBurnoutRisk, h1]
    norm_num
  · simp only [burnoutRiskClaim, h2]
    norm_num

/-- Claim C5 as amended: `analyzeBurnoutRisk` sums the durations of exactly
those sessions that have a started-at lying strictly after `now − 7×24h`
(the boundary session is excluded; there is no upper bound), divides by 7
and converts to hours per day, and reports "high" exactly when that total
exceeds 4200 minutes (10 h/day), "medium" exactly when it exceeds 3360
minutes (8 h/day) without exceeding 4200, and "low" otherwise; in
particular 10 sessions of 90 minutes started one day ago yield "low". -/
theorem c5_amended :
    (∀ (now : Nat) (ss : List FocusSession) (ts : List Task),
        ((analyzeBurnoutRisk now ss ts).riskLevel = "high"
          ↔ 4200 < burnoutTotalMinutes now ss)
        ∧ ((analyzeBurnoutRisk now ss ts).riskLevel = "medium"
          ↔ 3360 < burnoutTotalMinutes now ss ∧ burnoutTotalMinutes now ss ≤ 4200)
        ∧ ((analyzeBurnoutRisk now ss ts).riskLevel = "low"
          ↔ burnoutTotalMinutes now ss ≤ 3360)
        ∧ (analyzeBurnoutRisk now ss ts).hoursPerDay
          = (burnoutTotalMinutes now ss : ℚ) / 420)
    ∧ (analyzeBurnoutRisk 20160
        (List.replicate 10 ⟨some 90, some 18720, true⟩) []).riskLevel = "low" := by
  constructor
  · intro now ss ts
    have k10 : ((10 : ℚ) < (burnoutTotalMinutes now ss : ℚ) / 7 / 60
        ↔ 4200 < burnoutTotalMinutes now ss) := by
      rw [burnout_threshold_iff _ 10]
      norm_num
    have k8 : ((8 : ℚ) < (burnoutTotalMinutes now ss : ℚ) / 7 / 60
        ↔ 3360 < burnoutTotalMinutes now ss) := by
      rw [burnout_threshold_iff _ 8]
      norm_num
    simp only [analyzeBurnoutRisk]
    split_ifs with h10 h8 <;> dsimp only <;> refine ⟨?_, ?_, ?_, ?_⟩
    · exact iff_of_true rfl (k10.mp h10)
    · refine iff_of_false (by decide) ?_
      rintro ⟨-, hle⟩
      exact absurd (k10.mp h10) (by omega)
    · refine iff_of_false (by decide) ?_
      intro hle
      exact absurd (k10.mp h10) (by omega)
    · rw [div_div]
      norm_num
    · refine iff_of_false (by decide) ?_
      intro hgt
      exact h10 (k10.mpr hgt)
    · refine iff_of_true rfl ⟨k8.mp h8, ?_⟩
      by_contra hgt
      exact h10 (k10.mpr (by omega))
    · refine iff_of_false (by decide) ?_
      intro hle
      exact absurd (k8.mp h8) (by omega)
    · rw [div_div]
      norm_num
    · refine iff_of_false (by decide) ?_
      intro hgt
      exact h10 (k10.mpr hgt)
    · refine iff_of_false (by decide) ?_
      rintro ⟨hgt, -⟩
      exact h8 (k8.mpr hgt)
    · refine iff_of_true rfl ?_
      by_contra hgt
      exact h8 (k8.mpr (by omega))
    · rw [div_div]
      norm_num
  · have h900 : burnoutTotalMinutes 20160
        (List.replicate 10 ⟨some 90, some 18720, true⟩) = 900 := by
      decide
    simp only [analyzeBurnoutRisk, h900]
    norm_num

/-! ## Claim C7 -/

/-- Rounding a whole number of minutes returns it unchanged. -/
lemma jsRound_natCast (n : Nat) : jsRound (n : ℚ) = n := by
  have hfloor : ⌊(n : ℚ) + 1 / 2⌋ = (n : ℤ) := by
    rw [Int.floor_eq_iff]
    constructor
    · push_cast
      linarith
    · push_cast
      linarith
  unfold jsRound
  rw [hfloor]
  simp

/-- Counterexample to claim C7: a task carrying the explicit estimate 0 is
not returned unchanged — `if (task.time_estimate)` is falsy at 0, so the
function falls through to the history average and returns 50. -/
theorem c7_counterexample :
    estimateTaskDuration ⟨11, "todo", "high", "daily", none, none, some 0⟩
        [⟨12, "completed", "high", "daily", none, none, some 50⟩] = 50
    ∧ (50 : Nat) ≠ 0 := by
  have hsim : similarTasks ⟨11, "todo", "high", "daily", none, none, some 0⟩
      [⟨12, "completed", "high", "daily", none, none, some 50⟩]
      = [⟨12, "completed", "high", "daily", none, none, some 50⟩] := by
    decide
  refine ⟨?_, by decide⟩
  simp only [estimateTaskDuration, hsim]
  norm_num [jsTruthy, estimateSum]
  exact jsRound_natCast 50

/-- Claim C7 as amended: a task carrying a nonzero time-estimate has it
returned unchanged regardless of history (an estimate of 0 is treated as
absent); otherwise the function averages (and rounds) the estimates of the
completed same-category historical tasks that themselves have nonzero
estimates, falling back to the fixed defaults
daily 15 / weekly 30 / project 60 / someday 45 / otherwise 30 when no such
task exists. -/
theorem c7_amended :
    (∀ (task : Task) (hist : List Task) (e : Nat),
        task.time_estimate = some e → e ≠ 0 →
        estimateTaskDuration task hist = e)
    ∧ (∀ (task : Task) (hist : List Task),
        jsTruthy task.time_estimate = false →
        (similarTasks task hist = [] →
          estimateTaskDuration task hist = categoryDefault task.category)
        ∧ (similarTasks task hist ≠ [] →
          estimateTaskDuration task hist
            = jsRound ((estimateSum (similarTasks task hist) : ℚ)
                / ((similarTasks task hist).length : ℚ))))
    ∧ categoryDefault "daily" = 15 ∧ categoryDefault "weekly" = 30
    ∧ categoryDefault "project" = 60 ∧ categoryDefault "someday" = 45
    ∧ categoryDefault "errand" = 30 := by
  refine ⟨?_, ?_, rfl, rfl, rfl, rfl, rfl⟩
  · intro task hist e he hne
    have ht : jsTruthy (some e) = true := by
      simp [jsTruthy, hne]
    simp [estimateTaskDuration, he, ht]
  · intro task hist hfalse
    constructor
    · intro hsim
      simp [estimateTaskDuration, hfalse, hsim]
    · intro hsim
      have hlen : ¬ (similarTasks task hist).length = 0 := by
        simpa [List.length_eq_zero] using hsim
      simp [estimateTaskDuration, hfalse, hlen]

/-- Witness for C7: the explicit estimate 45 is returned even though the
history average is 50. -/
theorem c7_amended_witness :
    estimateTaskDuration ⟨10, "todo", "high", "daily", none, none, some 45⟩
        [⟨12, "completed", "high", "daily", none, none, some 50⟩] = 45 :=
  c7_amended.1 _ _ 45 rfl (by decide)

/-! ## Claim C3 -/

/-- The low-priority, no-due-date task of the claim's scenario. -/
def taskLowNoDue : Task := ⟨1, "todo", "low", "daily", none, none, none⟩

/-- The high-priority, no-due-date task of the claim's scenario. -/
def taskHighNoDue : Task := ⟨2, "todo", "high", "daily", none, none, none⟩

/-- The high-priority task with the due date (2024-01-01, here day-minute
100) of the claim's scenario. -/
def taskHighDue : Task := ⟨3, "todo", "high", "daily", some 100, none, none⟩

/-- A high-priority task with a late due date. -/
def taskHighLate : Task := ⟨4, "todo", "high", "daily", some 500, none, none⟩

/-- High-priority tasks without due dates, separating the two dated ones. -/
def taskHighBar1 : Task := ⟨5, "todo", "high", "daily", none, none, none⟩

/-- Second separating high-priority task without a due date. -/
def taskHighBar2 : Task := ⟨6, "todo", "high", "daily", none, none, none⟩

/-- A high-priority task with an early due date. -/
def taskHighEarly : Task := ⟨7, "todo", "high", "daily", some 100, none, none⟩

/-- Counterexample to claim C3.  On the claim's own input the comparator
returns 0 for the two high-priority tasks (they do not both have due
dates), so the stable sort keeps their input order and the task *without*
a due date is recommended first, not the one with the earlier due date.
Moreover, among equal-priority tasks that both have due dates the
earlier-due one is not in general ordered first: with two undated
high-priority tasks standing between them, the task due at 500 is returned
first while the task due at 100 is not returned at all. -/
theorem c3_counterexample :
    ((generateSmartTaskRecommendations
        [taskLowNoDue, taskHighNoDue, taskHighDue]).recommendations.map fun r => r.1)
      = [taskHighNoDue, taskHighDue, taskLowNoDue]
    ∧ taskHighNoDue ≠ taskHighDue
    ∧ ((generateSmartTaskRecommendations
        [taskHighLate, taskHighBar1, taskHighBar2, taskHighEarly]).recommendations.map
          fun r => r.1)
      = [taskHighLate, taskHighBar1, taskHighBar2]
    ∧ taskHighEarly ∉ ((generateSmartTaskRecommendations
        [taskHighLate, taskHighBar1, taskHighBar2, taskHighEarly]).recommendations.map
          fun r => r.1)
    ∧ taskHighEarly.due_date = some 100 ∧ taskHighLate.due_date = some 500
    ∧ taskHighEarly.priority = taskHighLate.priority := by
  refine ⟨?_, by decide, ?_, ?_, rfl, rfl, rfl⟩ <;>
    simp [generateSmartTaskRecommendations, List.mergeSort, List.splitInTwo,
      List.splitAt, List.splitAt.go, List.merge, taskLE, taskCmp, priorityWeight,
      taskLowNoDue, taskHighNoDue, taskHighDue, taskHighLate, taskHighBar1,
      taskHighBar2, taskHighEarly]

/-- Claim C3 as amended: on the claim's input the high-priority task without
a due date is recommended first and the high-priority task with the due
date second (the comparator treats the pair as a tie and the stable sort
preserves input order); the comparator does order two equal-priority tasks
that both have due dates by ascending due date when it compares them
directly, though tasks without due dates can keep that order from showing
in the output; and at most 3 recommendations are ever returned. -/
theorem c3_amended :
    ((generateSmartTaskRecommendations
        [taskLowNoDue, taskHighNoDue, taskHighDue]).recommendations.map fun r => r.1)
      = [taskHighNoDue, taskHighDue, taskLowNoDue]
    ∧ (∀ a b : Task, a.priority = b.priority → ∀ da db : Nat,
        a.due_date = some da → b.due_date = some db → da < db → taskCmp a b < 0)
    ∧ (∀ tasks : List Task,
        (generateSmartTaskRecommendations tasks).recommendations.length ≤ 3) := by
  refine ⟨?_, ?_, ?_⟩
  · simp [generateSmartTaskRecommendations, List.mergeSort, List.splitInTwo,
      List.splitAt, List.splitAt.go, List.merge, taskLE, taskCmp, priorityWeight,
      taskLowNoDue, taskHighNoDue, taskHighDue]
  · intro a b hp da db hda hdb hlt
    simp only [taskCmp, hp, ne_eq, not_true_eq_false, if_false, hda, hdb]
    omega
  · intro tasks
    simp only [generateSmartTaskRecommendations]
    split_ifs with h0
    · simp
    · simp only [List.length_map, List.length_take]
      omega

/-- Witness for C3 at two concrete equal-priority dated tasks. -/
theorem c3_amended_witness : taskCmp taskHighDue taskHighLate < 0 :=
  c3_amended.2.1 taskHighDue taskHighLate rfl 100 500 rfl rfl (by decide)

/-! ## Claims C4 and C10 -/

/-- Invariant of the best-hour fold over the ascending hours `0..n-1`: when
no hour has been picked every seen hour has count 0, and a picked hour `j`
has a positive count that strictly beats every earlier hour and is at least
the count of every seen hour. -/
lemma bestFold_range_spec (counts : Nat → Nat) :
    ∀ n : Nat,
      ((((List.range n).foldl (bestStep counts) (none, 0)).1 = none →
          ((List.range n).foldl (bestStep counts) (none, 0)).2 = 0
          ∧ ∀ h < n, counts h = 0)
        ∧ (∀ j, ((List.range n).foldl (bestStep counts) (none, 0)).1 = some j →
            j < n ∧ ((List.range n).foldl (bestStep counts) (none, 0)).2 = counts j
            ∧ 0 < counts j ∧ (∀ h < j, counts h < counts j)
            ∧ (∀ h < n, counts h ≤ counts j))) := by
  intro n
  induction n with
  | zero => simp
  | succ n ih =>
    rw [List.range_succ, List.foldl_append, List.foldl_cons, List.foldl_nil]
    obtain ⟨ihn, ihs⟩ := ih
    by_cases hc : counts n > ((List.range n).foldl (bestStep counts) (none, 0)).2
    · simp only [bestStep, hc, if_true]
      constructor
      · intro h
        exact Option.noConfusion h
      · intro j hj
        obtain rfl : n = j := Option.some.inj hj
        have hlt : ∀ h < n, counts h < counts n := by
          intro h hh
          cases hb : ((List.range n).foldl (bestStep counts) (none, 0)).1 with
          | none =>
            have := (ihn hb).2 h hh
            have h2 := (ihn hb).1
            omega
          | some j0 =>
            have := (ihs j0 hb).2.2.2.2 h hh
            have h2 := (ihs j0 hb).2.1
            omega
        refine ⟨Nat.lt_succ_self n, rfl, ?_, hlt, ?_⟩
        · omega
        · intro h hh
          rcases Nat.lt_succ_iff_lt_or_eq.mp hh with hh | rfl
          · exact Nat.le_of_lt (hlt h hh)
          · exact Nat.le_refl _
    · simp only [bestStep, hc, if_false]
      constructor
      · intro hb
        obtain ⟨h0, hall⟩ := ihn hb
        refine ⟨h0, ?_⟩
        intro h hh
        rcases Nat.lt_succ_iff_lt_or_eq.mp hh with hh | rfl
        · exact hall h hh
        · omega
      · intro j hj
        obtain ⟨hjn, hval, hpos, hstrict, hle⟩ := ihs j hj
        refine ⟨Nat.lt_succ_of_lt hjn, hval, hpos, hstrict, ?_⟩
        intro h hh
        rcases Nat.lt_succ_iff_lt_or_eq.mp hh with hh | rfl
        · exact hle h hh
        · omega

/-- When every hour count is 0 the fold never moves off `(none, 0)`. -/
lemma foldl_bestStep_zero (counts : Nat → Nat) (hz : ∀ h, counts h = 0) :
    ∀ l : List Nat, l.foldl (bestStep counts) (none, 0) = (none, 0)
  | [] => rfl
  | h :: t => by
    have hstep : bestStep counts (none, 0) h = (none, 0) := by
      simp [bestStep, hz h]
    rw [List.foldl_cons, hstep]
    exact foldl_bestStep_zero counts hz t

/-- Three completed sessions at hour 14 followed by three at hour 9: the
first-seen hour is 14, but the peak reported is 9. -/
def tieSessions : List FocusSession :=
  [⟨some 25, some 840, true⟩, ⟨some 25, some 840, true⟩, ⟨some 25, some 840, true⟩,
    ⟨some 25, some 540, true⟩, ⟨some 25, some 540, true⟩, ⟨some 25, some 540, true⟩]

/-- Counterexample to claim C4: with three completed sessions in hour 14
listed before three in hour 9, the first-seen hour of the tie is 14, yet
the function reports hour 9, because `Object.entries` enumerates the
integer-keyed hour buckets in ascending numeric order, not insertion
order. -/
theorem c4_counterexample :
    (detectProductivityPatterns tieSessions).peakHour = some 9
    ∧ (detectProductivityPatterns tieSessions).peakHour ≠ some 14 := by
  constructor <;> decide

/-- Claim C4 as amended: the "insufficient data" result (no peak hour) is
returned exactly when fewer than 5 completed sessions are supplied;
otherwise the result is "identified" and the reported peak hour has a
positive completed-session count that strictly exceeds the count of every
smaller hour (the numerically smallest hour wins ties, since
`Object.entries` enumerates the integer hour keys in ascending order) and
is at least the count of every hour, and it is labeled morning below 12,
afternoon below 17, and evening from 17 on; when no completed session has
a started-at, the peak hour is null. -/
theorem c4_amended :
    ∀ ss : List FocusSession,
      ((detectProductivityPatterns ss).pattern = "insufficient_data"
        ↔ (ss.filter (·.completed)).length < 5)
      ∧ (5 ≤ (ss.filter (·.completed)).length →
          (detectProductivityPatterns ss).pattern = "identified"
          ∧ ((detectProductivityPatterns ss).peakHour = none →
              ∀ h < 24, hourCount (ss.filter (·.completed)) h = 0)
          ∧ (∀ j, (detectProductivityPatterns ss).peakHour = some j →
              0 < hourCount (ss.filter (·.completed)) j
              ∧ (∀ h < j, hourCount (ss.filter (·.completed)) h
                  < hourCount (ss.filter (·.completed)) j)
              ∧ (∀ h < 24, hourCount (ss.filter (·.completed)) h
                  ≤ hourCount (ss.filter (·.completed)) j)
              ∧ (detectProductivityPatterns ss).peakTimeLabel
                  = some (timeLabelOf (some j)))) := by
  intro ss
  by_cases hlt : (ss.filter (·.completed)).length < 5
  · constructor
    · simp [detectProductivityPatterns, hlt]
    · intro h5
      omega
  · have hd : detectProductivityPatterns ss
        = ⟨"identified", (bestHourFold (hourCount (ss.filter (·.completed)))).1,
            some (timeLabelOf (bestHourFold (hourCount (ss.filter (·.completed)))).1),
            some (bestHourFold (hourCount (ss.filter (·.completed)))).2,
            "You\x27re most productive in the "
              ++ timeLabelOf (bestHourFold (hourCount (ss.filter (·.completed)))).1
              ++ " (around " ++
              hourText (bestHourFold (hourCount (ss.filter (·.completed)))).1
              ++ ":00). Schedule important tasks during this time."⟩ := by
      simp [detectProductivityPatterns, hlt]
    rw [hd]
    constructor
    · simp [hlt]
    · intro h5
      have hspec := bestFold_range_spec (hourCount (ss.filter (·.completed))) 24
      refine ⟨rfl, ?_, ?_⟩
      · intro hb
        exact (hspec.1 (by simpa [bestHourFold] using hb)).2
      · intro j hj
        have hb1 : (bestHourFold (hourCount (ss.filter (·.completed)))).1 = some j := by
          simpa [bestHourFold] using hj
        obtain ⟨-, -, hpos, hstrict, hle⟩ := hspec.2 j hb1
        refine ⟨hpos, hstrict, hle, ?_⟩
        simp [hb1]

/-- Witness for C4 at the tie scenario. -/
theorem c4_amended_witness :
    0 < hourCount (tieSessions.filter (·.completed)) 9
    ∧ (detectProductivityPatterns tieSessions).pattern = "identified" := by
  have h := (c4_amended tieSessions).2 (by decide)
  exact ⟨(h.2.2 9 (by decide)).1, h.1⟩

/-- Claim C10: completed sessions without a started-at count toward the
5-session threshold but produce no hour buckets, so when every completed
session lacks a started-at the result is the "identified" pattern with a
null peak hour, zero sessions in the peak hour, and the "morning" label
(JavaScript evaluates `null < 12` as `0 < 12`). -/
theorem c10_missing_started_at :
    ∀ ss : List FocusSession,
      5 ≤ (ss.filter (·.completed)).length →
      (∀ s ∈ ss, s.completed = true → s.started_at = none) →
      detectProductivityPatterns ss
        = ⟨"identified", none, some "morning", some 0,
            "You\x27re most productive in the morning (around null:00). Schedule important tasks during this time."⟩ := by
  intro ss h5 hnone
  have hz : ∀ h, hourCount (ss.filter (·.completed)) h = 0 := by
    intro h
    rw [hourCount, List.countP_eq_zero]
    intro s hs
    have hmem : s ∈ ss := (List.mem_filter.mp hs).1
    have hsc : s.completed = true := by simpa using (List.mem_filter.mp hs).2
    rw [hnone s hmem hsc]
    simp
  have hb : bestHourFold (hourCount (ss.filter (·.completed))) = (none, 0) :=
    foldl_bestStep_zero _ hz _
  have hlt : ¬ (ss.filter (·.completed)).length < 5 := by omega
  simp [detectProductivityPatterns, hlt, hb, timeLabelOf, hourText]

/-- Witness for C10 at five concrete sessions without started-at. -/
theorem c10_missing_started_at_witness :
    detectProductivityPatterns (List.replicate 5 ⟨some 25, none, true⟩)
      = ⟨"identified", none, some "morning", some 0,
          "You\x27re most productive in the morning (around null:00). Schedule important tasks during this time."⟩ :=
  c10_missing_started_at _ (by decide) (by decide)

/-! ## Claim C8 -/

/-- Membership is unchanged by the `Set` deduplication. -/
lemma mem_jsSetDedup {a : Int} : ∀ {l : List Int}, a ∈ jsSetDedup l ↔ a ∈ l
  | [] => Iff.rfl
  | b :: l => by
    by_cases hab : a = b
    · simp [jsSetDedup, hab]
    · simp [jsSetDedup, hab, mem_jsSetDedup (l := l)]

/-- The `Set` deduplication produces a list without duplicates. -/
lemma nodup_jsSetDedup : ∀ l : List Int, (jsSetDedup l).Nodup
  | [] => List.nodup_nil
  | b :: l => by
    rw [jsSetDedup, List.nodup_cons]
    refine ⟨?_, (nodup_jsSetDedup l).filter _⟩
    intro hmem
    have := (List.mem_filter.mp hmem).2
    simp at this

/-- Permuting the input permutes its deduplication. -/
lemma jsSetDedup_perm {l₁ l₂ : List Int} (h : l₁.Perm l₂) :
    (jsSetDedup l₁).Perm (jsSetDedup l₂) :=
  (List.perm_ext_iff_of_nodup (nodup_jsSetDedup _) (nodup_jsSetDedup _)).2
    fun a => by rw [mem_jsSetDedup, mem_jsSetDedup, h.mem_iff]

/-- The date order is transitive. -/
lemma dayLE_trans : ∀ a b c : Int, dayLE a b → dayLE b c → dayLE a c := by
  intro a b c hab hbc
  simp only [dayLE, decide_eq_true_eq] at *
  omega

/-- The date order is total. -/
lemma dayLE_total : ∀ a b : Int, dayLE a b || dayLE b a := by
  intro a b
  simp only [dayLE, Bool.or_eq_true, decide_eq_true_eq]
  omega

/-- Sorting two permuted lists of days gives the same list: both results
are sorted for the antisymmetric order `≤` and they are permutations of
each other. -/
lemma mergeSort_dayLE_eq {l₁ l₂ : List Int} (h : l₁.Perm l₂) :
    l₁.mergeSort dayLE = l₂.mergeSort dayLE := by
  refine List.eq_of_perm_of_sorted (r := fun a b : Int => a ≤ b)
    ((List.mergeSort_perm l₁ dayLE).trans
      (h.trans (List.mergeSort_perm l₂ dayLE).symm)) ?_ ?_
  · exact (List.sorted_mergeSort dayLE_trans dayLE_total l₁).imp
      fun hab => by simpa [dayLE] using hab
  · exact (List.sorted_mergeSort dayLE_trans dayLE_total l₂).imp
      fun hab => by simpa [dayLE] using hab

/-- Permuted date lists produce identical sorted unique-date lists. -/
lemma uniqueDatesSorted_perm_eq {l₁ l₂ : List Int} (h : l₁.Perm l₂) :
    uniqueDatesSorted l₁ = uniqueDatesSorted l₂ := by
  unfold uniqueDatesSorted
  rw [mergeSort_dayLE_eq (jsSetDedup_perm h)]

/-- Claim C8: the streak of an empty task list is 0, and the streak is
invariant under any permutation of the task list — the walk consumes the
deduplicated, sorted completion days, which do not depend on input order. -/
theorem c8_streak :
    (∀ today : Int, computeStreak today [] = 0)
    ∧ (∀ (today : Int) (l₁ l₂ : List Task), l₁.Perm l₂ →
        computeStreak today l₁ = computeStreak today l₂) := by
  constructor
  · intro today
    simp [computeStreak, uniqueDatesSorted, jsSetDedup, streakWalk]
  · intro today l₁ l₂ h
    simp only [computeStreak]
    rw [uniqueDatesSorted_perm_eq (h.filterMap _)]

/-- A task completed on day 1. -/
def taskDoneDay1 : Task := ⟨1, "completed", "low", "daily", none, some 1440, none⟩

/-- A task completed on day 2. -/
def taskDoneDay2 : Task := ⟨2, "completed", "low", "daily", none, some 2880, none⟩

/-- Witness for C8: the empty list and a concrete transposition. -/
theorem c8_streak_witness :
    computeStreak 7 ([] : List Task) = 0
    ∧ computeStreak 2 [taskDoneDay1, taskDoneDay2]
        = computeStreak 2 [taskDoneDay2, taskDoneDay1] :=
  ⟨c8_streak.1 7,
    c8_streak.2 2 [taskDoneDay1, taskDoneDay2] [taskDoneDay2, taskDoneDay1]
      (List.Perm.swap taskDoneDay2 taskDoneDay1 [])⟩

end Timora
